import Mathlib

/-!
Shallow embedding of the llm-build-deploy server
(src/server/main.py, src/server/generator.py, src/server/github_ops.py).

File-system writes, directory creation, subprocess invocations and outbound
HTTP posts are recorded as an explicit event trace; Python exceptions are
modelled with an `Except` result.  Every definition below mirrors one named
Python function or constant of the source, except for the small `py*`
string helpers (models of the Python string methods the source uses) and
`Env`, which packages the ambient process state (environment variables,
subprocess results, generation-provider outcome) the source reads.
-/

/-- Model of Python `str.replace` for a non-empty pattern: scan left to
right, replacing non-overlapping occurrences.  The fuel argument is the
string length, which suffices because every step consumes at least one
character of the scanned list. -/
def replaceAux : Nat → List Char → List Char → List Char → List Char
  | 0, s, _, _ => s
  | fuel + 1, s, pat, rep =>
    match s with
    | [] => []
    | c :: rest =>
      if pat.isPrefixOf (c :: rest) then
        rep ++ replaceAux fuel ((c :: rest).drop pat.length) pat rep
      else
        c :: replaceAux fuel rest pat rep

/-- Model of Python `s.replace(pat, rep)` (all patterns used by the source
are non-empty). -/
def pyReplace (s pat rep : String) : String :=
  ⟨replaceAux s.data.length s.data pat.data rep.data⟩

/-- Model of Python `a or b` on strings: `a` when non-empty (truthy), else `b`. -/
def pyOr (a b : String) : String := if a = "" then b else a

/-- Model of Python `str.lower` (ASCII approximation). -/
def pyLower (s : String) : String := ⟨s.data.map Char.toLower⟩

/-- Model of Python `str.strip` (strip leading and trailing whitespace). -/
def pyStrip (s : String) : String :=
  ⟨((s.data.dropWhile Char.isWhitespace).reverse.dropWhile Char.isWhitespace).reverse⟩

/-- Model of Python `str.title` (ASCII approximation): a letter is
upper-cased when the previous character is not a letter, lower-cased
otherwise. -/
def pyTitleAux : Bool → List Char → List Char
  | _, [] => []
  | prevAlpha, c :: rest =>
    if c.isAlpha then
      (if prevAlpha then c.toLower else c.toUpper) :: pyTitleAux true rest
    else
      c :: pyTitleAux false rest

/-- Model of Python `str.title`. -/
def pyTitle (s : String) : String := ⟨pyTitleAux false s.data⟩

/-- Model of Python `pat in s` (substring containment). -/
def containsSubAux (pat : List Char) : List Char → Bool
  | [] => pat.isEmpty
  | c :: rest => pat.isPrefixOf (c :: rest) || containsSubAux pat rest

/-- Model of Python `pat in s` on strings. -/
def containsSub (s pat : String) : Bool := containsSubAux pat.data s.data

/-- Split a path string on the slash character, modelling how
`pathlib.Path(base) / rel` decomposes `rel` into segments. -/
def splitSegsAux (cur : List Char) : List Char → List String
  | [] => [⟨cur.reverse⟩]
  | c :: rest =>
    if c = '/' then (⟨cur.reverse⟩ : String) :: splitSegsAux [] rest
    else splitSegsAux (c :: cur) rest

/-- Segments of a path string. -/
def splitSegs (s : String) : List String := splitSegsAux [] s.data

/-- Model of `pathlib.Path(base) / rel`: an absolute `rel` replaces `base`
(pathlib semantics), otherwise its segments are appended verbatim; no
normalization of `..` happens at join time, exactly as in the source. -/
def pyJoin (base : List String) (rel : String) : List String :=
  if rel.data.head? = some '/' then splitSegs rel else base ++ splitSegs rel

/-- Operating-system resolution of `.`, `..` and empty segments, used to
reason about where a file write actually lands on disk. -/
def resolveComp : List String → List String → List String
  | acc, [] => acc
  | acc, s :: rest =>
    if s = "" ∨ s = "." then resolveComp acc rest
    else if s = ".." then resolveComp acc.dropLast rest
    else resolveComp (acc ++ [s]) rest

/-- Resolve a segment list from the root. -/
def resolvePath (p : List String) : List String := resolveComp [] p

/-- main.py `Attachment` pydantic model. -/
structure Attachment where
  name : String
  url : String
  deriving DecidableEq

/-- One entry of the built-in fallback file set: `builtin_template`
(generator.py lines 64-67) constructs its two dicts with string `path`
and `content` literals, so these are well-shaped by construction.
Provider-produced entries are arbitrary JSON values and are modelled
separately (see `JVal`). -/
structure FileEntry where
  path : String
  content : String
  deriving DecidableEq

/-- main.py `TaskRequest` pydantic model.  Pydantic validates `round ≥ 1`
before the handler runs; no claim depends on that bound. -/
structure TaskRequest where
  email : String
  secret : String
  task : String
  round : Nat
  nonce : String
  brief : String
  checks : List String
  evaluation_url : String
  attachments : List Attachment
  deriving DecidableEq

/-- The JSON object returned by `accept_task` on success (main.py lines
102-111). -/
structure TaskResponse where
  status : String
  email : String
  task : String
  round : Nat
  nonce : String
  repo_url : String
  commit_sha : String
  pages_url : String
  deriving DecidableEq

/-- Observable side effects of the pipeline.  `httpPost` would be emitted
by the notifier (`post_with_backoff`); no reachable code path of
`accept_task` produces it, because main.py lines 112-119 sit after the
`return` on lines 102-111. -/
inductive Event where
  | mkdir (path : List String)
  | writeFile (path : List String) (content : String)
  | run (cmd : String) (cwd : Option (List String))
  | httpPost (url : String)
  deriving DecidableEq

/-- A side-effect trace. -/
abbrev Trace := List Event

/-- Python exceptions raised by the embedded code: FastAPI's
`HTTPException`; `RuntimeError` (from `sh` and `_get_user`); `TypeError`
(raised by the interpreter on a call whose positional argument count does
not match the callee's parameter count, on indexing or iterating a value
of the wrong type, and on `Path` join or `write_text` with non-string
data); `AttributeError` (calling `.get` on a non-dict); and `KeyError`
(a missing dict key, carrying the key). -/
inductive PyErr where
  | httpException (status : Nat) (detail : String)
  | runtimeError (msg : String)
  | typeError (msg : String)
  | attributeError (msg : String)
  | keyError (key : String)
  deriving DecidableEq

/-- Result of `subprocess.run` as observed by `sh` (github_ops.py). -/
structure ShOut where
  returncode : Int
  stdout : String
  stderr : String
  deriving DecidableEq

/-- A parsed JSON value, as produced by `json.loads` at generator.py line
34: `call_llm` returns whatever shape the provider sent, with no
validation, and `materialize_app` consumes it with plain Python dict/list
operations that raise on the wrong shape.  Numbers are modelled as `Int`
(truthiness is all any code here asks of them), and `obj` models an
already-built dict, so its field list has unique keys (duplicate keys are
collapsed by `json.loads` before any code here sees them). -/
inductive JVal where
  | null
  | bool (b : Bool)
  | num (n : Int)
  | str (s : String)
  | arr (elems : List JVal)
  | obj (fields : List (String × JVal))

/-- First-match lookup in a dict's field list (unique keys). -/
def lookupField : List (String × JVal) → String → Option JVal
  | [], _ => none
  | (k, v) :: rest, key => if k = key then some v else lookupField rest key

/-- Python truthiness of a JSON value: None, False, 0, "", [] and
empty dicts are falsy, everything else truthy. -/
def JVal.truthy : JVal → Bool
  | .null => false
  | .bool b => b
  | .num n => n != 0
  | .str s => !(s == "")
  | .arr xs => !xs.isEmpty
  | .obj fs => !fs.isEmpty

/-- Python `v.get(key)`: field lookup on a dict (absent key gives None),
`AttributeError` on anything else.  The Python message quotes the value's
type name; the model elides it. -/
def JVal.get (v : JVal) (key : String) : Except PyErr (Option JVal) :=
  match v with
  | .obj fields => .ok (lookupField fields key)
  | .arr _ => .error (.attributeError "\x27list\x27 object has no attribute \x27get\x27")
  | .str _ => .error (.attributeError "\x27str\x27 object has no attribute \x27get\x27")
  | .num _ => .error (.attributeError "\x27int\x27 object has no attribute \x27get\x27")
  | .bool _ => .error (.attributeError "\x27bool\x27 object has no attribute \x27get\x27")
  | .null => .error (.attributeError "\x27NoneType\x27 object has no attribute \x27get\x27")

/-- Python `v[key]` with a string key: dict lookup raising `KeyError` when
the key is missing, `TypeError` on non-dicts. -/
def JVal.index (v : JVal) (key : String) : Except PyErr JVal :=
  match v with
  | .obj fields =>
    match lookupField fields key with
    | some x => .ok x
    | none => .error (.keyError key)
  | .str _ => .error (.typeError "string indices must be integers")
  | .arr _ => .error (.typeError "list indices must be integers or slices, not str")
  | .num _ => .error (.typeError "\x27int\x27 object is not subscriptable")
  | .bool _ => .error (.typeError "\x27bool\x27 object is not subscriptable")
  | .null => .error (.typeError "\x27NoneType\x27 object is not subscriptable")

/-- Python `for f in v`: lists yield their elements, strings their
characters, dicts their keys; numbers, booleans and None raise
`TypeError`. -/
def JVal.iter : JVal → Except PyErr (List JVal)
  | .arr xs => .ok xs
  | .str s => .ok (s.data.map fun c => .str ⟨[c]⟩)
  | .obj fields => .ok (fields.map fun kv => .str kv.1)
  | .num _ => .error (.typeError "\x27int\x27 object is not iterable")
  | .bool _ => .error (.typeError "\x27bool\x27 object is not iterable")
  | .null => .error (.typeError "\x27NoneType\x27 object is not iterable")

/-- Outcome of the generation-provider interaction inside `call_llm`
(generator.py lines 12-40).  The first four constructors are the cases in
which `call_llm` returns the falsy empty dict: missing credentials,
non-200 HTTP status, a network/auth exception, and a response body on
which `json.loads` itself raises.  `parsed v` carries the `json.loads`
output verbatim — any JSON shape at all, well-formed or not, since
`call_llm` performs no validation of the parsed value. -/
inductive LLMOutcome where
  | noCreds
  | non200
  | netError
  | badParse
  | parsed (v : JVal)

/-- Ambient process state read by the source.  `verify_secret` -
Modelled from the spec: `security.verify_secret` (the `security` module is
not under src/); per the spec it is the shared-secret check whose mismatch
terminates the request.  `github_user` is the `GITHUB_USER` environment
variable, `llm` the generation-provider outcome, and `sh_result` maps each
shell command line to its `subprocess.run` result. -/
structure Env where
  verify_secret : String → Bool
  github_user : Option String
  llm : LLMOutcome
  sh_result : String → ShOut

/-- generator.py: the fallback `html` template inside `builtin_template`
(lines 43-62), with the `\x7bDEFAULT_URL\x7d` placeholder still in place. -/
def FALLBACK_HTML : String := String.intercalate "\n" [
  "<!doctype html>",
  "<html lang=\"en\"><meta charset=\"utf-8\"/>",
  "<meta name=\"viewport\" content=\"width=device-width, initial-scale=1\"/>",
  "<title>Captcha Solver</title>",
  "<link rel=\"stylesheet\" href=\"styles.css\"/>",
  "<body><main>",
  "<h1>Captcha Solver</h1>",
  "<p>Pass image via <code>?url=</code>. If absent, a sample is used.</p>",
  "<img id=\"img\" alt=\"captcha\"/>",
  "<pre id=\"result\">Solving…</pre>",
  "</main>",
  "<script src=\"https://cdn.jsdelivr.net/npm/tesseract.js@5/dist/tesseract.min.js\"></script>",
  "<script>",
  "const q=new URLSearchParams(location.search);",
  "const url=q.get(\x27url\x27)||\"\x7bDEFAULT_URL\x7d\";",
  "document.getElementById(\x27img\x27).src=url;",
  "Tesseract.recognize(url,\x27eng\x27,\x7blogger:m=>console.log(m)\x7d).then((\x7bdata\x7d)=>\x7b",
  "  document.getElementById(\x27result\x27).textContent=(data.text||\x27\x27).trim()||\x27(no text found)\x27;",
  "\x7d).catch(e=>\x7bdocument.getElementById(\x27result\x27).textContent=\x27Error: \x27+e\x7d);",
  "</script></body></html>"]

/-- generator.py: the fallback `css` string inside `builtin_template` (line 63). -/
def FALLBACK_CSS : String :=
  "body\x7bfont-family:system-ui;margin:16px\x7dmain\x7bmax-width:720px;margin:auto\x7dimg\x7bmax-width:100%;border:1px solid #ddd;border-radius:8px\x7dpre\x7bbackground:#111;color:#0f0;padding:12px;border-radius:8px\x7d"

/-- generator.py: the placeholder replaced inside the fallback html. -/
def DEFAULT_URL_PAT : String := "\x7bDEFAULT_URL\x7d"

/-- generator.py `PAGES_YML` (lines 69-103), the CI workflow descriptor
`materialize_app` writes unconditionally. -/
def PAGES_YML : String := String.intercalate "\n" [
  "name: Deploy to GitHub Pages",
  "on:",
  "  push:",
  "    branches: [\"main\"]",
  "permissions:",
  "  contents: read",
  "  pages: write",
  "  id-token: write",
  "concurrency:",
  "  group: \"pages\"",
  "  cancel-in-progress: true",
  "jobs:",
  "  build:",
  "    runs-on: ubuntu-latest",
  "    steps:",
  "      - name: Checkout",
  "        uses: actions/checkout@v4",
  "      - name: Upload artifact",
  "        uses: actions/upload-pages-artifact@v3",
  "        with:",
  "          path: .",
  "  deploy:",
  "    needs: build",
  "    runs-on: ubuntu-latest",
  "    permissions:",
  "      pages: write",
  "      id-token: write",
  "    environment:",
  "      name: github-pages",
  "      url: $\x7b\x7b steps.deployment.outputs.page_url \x7d\x7d",
  "    steps:",
  "      - name: Deploy to GitHub Pages",
  "        id: deployment",
  "        uses: actions/deploy-pages@v4",
  ""]

/-- generator.py `call_llm` (lines 12-40): every failure mode — missing
credentials, non-200 status, a network/auth exception, or a body on which
`json.loads` raises — returns the empty dict; otherwise the `json.loads`
output is returned verbatim, whatever its shape. -/
def call_llm : LLMOutcome → JVal
  | .noCreds => .obj []
  | .non200 => .obj []
  | .netError => .obj []
  | .badParse => .obj []
  | .parsed v => v

/-- generator.py `builtin_template` (lines 42-67): the two-file fallback
set, with `default_url or ""` substituted for the placeholder in the html. -/
def builtin_template (default_url : String) : List FileEntry :=
  [⟨"index.html", pyReplace FALLBACK_HTML DEFAULT_URL_PAT (pyOr default_url "")⟩,
   ⟨"styles.css", FALLBACK_CSS⟩]

/-- The dict value of one builtin fallback entry, as the write loop of
`materialize_app` sees it: `\x7b"path": ..., "content": ...\x7d` with
string values. -/
def FileEntry.toJVal (f : FileEntry) : JVal :=
  .obj [("path", .str f.path), ("content", .str f.content)]

/-- generator.py line 110: `attachments[0].get("url", "") if attachments
else ""` (an `Attachment` model always carries a `url` string). -/
def default_url (attachments : List Attachment) : String :=
  match attachments with
  | [] => ""
  | a :: _ => a.url

/-- The body of the write loop of `materialize_app` (generator.py lines
120-122) for one entry `f`, in Python evaluation order:
`p = Path(local_dir) / f["path"]` (a `KeyError` on a missing key, a
`TypeError` indexing a non-dict, a `TypeError` joining a non-string);
then `p.parent.mkdir(...)`; then `p.write_text(f["content"], ...)`
(a `KeyError` on a missing key, a `TypeError` writing non-string data).
The Python join/write messages quote the offending type; the model elides
it. -/
def writeEntry (local_dir : List String) (f : JVal) : Trace × Except PyErr Unit :=
  match f.index "path" with
  | .error e => ([], .error e)
  | .ok (.str ps) =>
    let p := pyJoin local_dir ps
    match f.index "content" with
    | .error e => ([Event.mkdir p.dropLast], .error e)
    | .ok (.str cs) => ([Event.mkdir p.dropLast, Event.writeFile p cs], .ok ())
    | .ok _ =>
      ([Event.mkdir p.dropLast], .error (.typeError "data must be str"))
  | .ok _ =>
    ([], .error (.typeError
      "argument should be a str or an os.PathLike object where __fspath__ returns a str"))

/-- The write loop of `materialize_app` over the iterated entries: each
entry's effects happen in order, and the first exception aborts the rest
of the loop while keeping the effects already performed. -/
def writeFiles (local_dir : List String) : List JVal → Trace × Except PyErr Unit
  | [] => ([], .ok ())
  | f :: rest =>
    match writeEntry local_dir f with
    | (t, .error e) => (t, .error e)
    | (t, .ok _) =>
      match writeFiles local_dir rest with
      | (t2, r) => (t ++ t2, r)

/-- generator.py `materialize_app` (lines 105-127): ensure the working
directory exists; take `default_url` from the first attachment (or
empty); compute `files = llm.get("files") if llm else None` (an
`AttributeError` when the parsed value is truthy but not a dict); if
`files` is falsy substitute the builtin fallback set; iterate the
resulting value (a `TypeError` on a non-iterable) and write every entry
with no path sanitization; finally — only if no exception was raised —
write `.github/workflows/pages.yml`. -/
def materialize_app (llm : LLMOutcome) (local_dir : List String)
    (brief : String) (attachments : List Attachment) : Trace × Except PyErr Unit :=
  let t0 : Trace := [Event.mkdir local_dir]
  let llmv : JVal := call_llm llm
  let files0 : Except PyErr (Option JVal) :=
    if llmv.truthy then llmv.get "files" else .ok none
  match files0 with
  | .error e => (t0, .error e)
  | .ok files? =>
    let filesIter : Except PyErr (List JVal) :=
      match files? with
      | none => .ok ((builtin_template (default_url attachments)).map FileEntry.toJVal)
      | some v =>
        if v.truthy then v.iter
        else .ok ((builtin_template (default_url attachments)).map FileEntry.toJVal)
    match filesIter with
    | .error e => (t0, .error e)
    | .ok items =>
      match writeFiles local_dir items with
      | (t, .error e) => (t0 ++ t, .error e)
      | (t, .ok _) =>
        (t0 ++ t
          ++ [Event.mkdir (local_dir ++ [".github", "workflows"]),
              Event.writeFile (local_dir ++ [".github", "workflows", "pages.yml"]) PAGES_YML],
         .ok ())

/-- github_ops.py line 39: the `git init` command. -/
def gitInitCmd : String := "git init -b main"

/-- github_ops.py line 40: the committer-name command. -/
def gitConfigNameCmd (user : String) : String :=
  "git config user.name \"" ++ user ++ "\""

/-- github_ops.py line 41: the committer-email command. -/
def gitConfigEmailCmd (user : String) : String :=
  "git config user.email \"" ++ user ++ "@users.noreply.github.com\""

/-- github_ops.py line 46: the `gh repo create` command. -/
def ghRepoCreateCmd (user repo : String) : String :=
  "gh repo create " ++ user ++ "/" ++ repo ++ " --public -y"

/-- github_ops.py line 140: the staging command. -/
def gitAddCmd : String := "git add ."

/-- github_ops.py line 142: the commit command (empty commits allowed). -/
def gitCommitCmd : String := "git commit -m \"auto: build\" --allow-empty"

/-- github_ops.py line 146: probe for an existing `origin` remote. -/
def gitGetUrlCmd : String := "git remote get-url origin"

/-- github_ops.py line 148: add the `origin` remote. -/
def gitAddRemoteCmd (user repo : String) : String :=
  "git remote add origin https://github.com/" ++ user ++ "/" ++ repo ++ ".git"

/-- github_ops.py line 150: push and set upstream tracking. -/
def gitPushCmd : String := "git push -u origin main"

/-- github_ops.py line 151: resolve the current commit hash. -/
def gitRevParseCmd : String := "git rev-parse HEAD"

/-- github_ops.py line 26: the `RuntimeError` message `sh` raises on a
non-zero exit, carrying the command plus its captured stdout and stderr. -/
def shFailMsg (cmd stdout stderr : String) : String :=
  "Command failed: " ++ cmd ++ "\n" ++ stdout ++ "\n" ++ stderr

/-- github_ops.py `sh` (lines 21-27): run a shell command, raise
`RuntimeError` with the captured output on a non-zero exit, otherwise
return the stripped stdout. -/
def sh (env : Env) (cmd : String) (cwd : Option (List String)) :
    Trace × Except PyErr String :=
  let res := env.sh_result cmd
  if res.returncode ≠ 0 then
    ([Event.run cmd cwd], .error (.runtimeError (shFailMsg cmd res.stdout res.stderr)))
  else
    ([Event.run cmd cwd], .ok (pyStrip res.stdout))

/-- github_ops.py line 15-17: the `RuntimeError` message of `_get_user`. -/
def getUserFailMsg : String :=
  "GITHUB_USER is not set. Check your .env and that load_dotenv ran before importing github_ops."

/-- github_ops.py `_get_user` (lines 12-18): the configured account, or a
`RuntimeError` when `GITHUB_USER` is unset or empty (both falsy). -/
def _get_user (env : Env) : Except PyErr String :=
  match env.github_user with
  | none => .error (.runtimeError getUserFailMsg)
  | some u => if u = "" then .error (.runtimeError getUserFailMsg) else .ok u

/-- github_ops.py `ensure_repo` (lines 30-52): make the working directory,
init the repo in place on branch `main`, set the committer identity, then
try to create the remote repository; a creation failure whose lower-cased
message contains "already exists" is swallowed, any other bubbles up. -/
def ensure_repo (env : Env) (repo_name : String) (local_dir : List String) :
    Trace × Except PyErr Unit :=
  match _get_user env with
  | .error e => ([], .error e)
  | .ok user =>
    let t0 : Trace := [Event.mkdir local_dir]
    match sh env gitInitCmd (some local_dir) with
    | (t1, .error e) => (t0 ++ t1, .error e)
    | (t1, .ok _) =>
      match sh env (gitConfigNameCmd user) (some local_dir) with
      | (t2, .error e) => (t0 ++ t1 ++ t2, .error e)
      | (t2, .ok _) =>
        match sh env (gitConfigEmailCmd user) (some local_dir) with
        | (t3, .error e) => (t0 ++ t1 ++ t2 ++ t3, .error e)
        | (t3, .ok _) =>
          match sh env (ghRepoCreateCmd user repo_name) none with
          | (t4, .ok _) => (t0 ++ t1 ++ t2 ++ t3 ++ t4, .ok ())
          | (t4, .error e) =>
            match e with
            | .runtimeError msg =>
              if containsSub (pyLower msg) "already exists" then
                (t0 ++ t1 ++ t2 ++ t3 ++ t4, .ok ())
              else
                (t0 ++ t1 ++ t2 ++ t3 ++ t4, .error (.runtimeError msg))
            | e => (t0 ++ t1 ++ t2 ++ t3 ++ t4, .error e)

/-- github_ops.py lines 57-79: the MIT license text written by
`write_license_and_readme` (after `textwrap.dedent`). -/
def LICENSE_TEXT : String := String.intercalate "\n" [
  "MIT License",
  "",
  "Copyright (c) 2025",
  "",
  "Permission is hereby granted, free of charge, to any person obtaining a copy",
  "of this software and associated documentation files (the \"Software\"), to deal",
  "in the Software without restriction, including without limitation the rights",
  "to use, copy, modify, merge, publish, distribute, sublicense, and/or sell",
  "copies of the Software, and to permit persons to whom the Software is",
  "furnished to do so, subject to the following conditions:",
  "",
  "The above copyright notice and this permission notice shall be included in",
  "all copies or substantial portions of the Software.",
  "",
  "THE SOFTWARE IS PROVIDED \"AS IS\", WITHOUT WARRANTY OF ANY KIND, EXPRESS OR",
  "IMPLIED, INCLUDING BUT NOT LIMITED TO THE WARRANTIES OF MERCHANTABILITY,",
  "FITNESS FOR A PARTICULAR PURPOSE AND NONINFRINGEMENT. IN NO EVENT SHALL THE",
  "AUTHORS OR COPYRIGHT HOLDERS BE LIABLE FOR ANY CLAIM, DAMAGES OR OTHER",
  "LIABILITY, WHETHER IN AN ACTION OF CONTRACT, TORT OR OTHERWISE, ARISING FROM,",
  "OUT OF OR IN CONNECTION WITH THE SOFTWARE OR THE USE OR OTHER DEALINGS IN",
  "THE SOFTWARE.",
  ""]

/-- github_ops.py lines 81-99: the README text written by
`write_license_and_readme`, with the caller-supplied `brief` interpolated. -/
def readmeText (brief : String) : String := String.intercalate "\n" [
  "# Auto-Built App",
  "",
  "**Summary:** " ++ brief,
  "",
  "## Usage",
  "Open the GitHub Pages URL (see repo About). Pass `?url=` pointing to a CAPTCHA image, for example:",
  "`?url=https://upload.wikimedia.org/wikipedia/commons/4/4b/Example.png`",
  "",
  "## Code Structure",
  "- `index.html` + `styles.css`: minimal OCR web app using Tesseract.js (via CDN)",
  "- `.github/workflows/pages.yml`: GitHub Actions workflow that deploys the site to Pages",
  "",
  "## Development",
  "Static site; open `index.html` locally or via GitHub Pages. OCR runs in-browser.",
  "",
  "## License",
  "MIT",
  ""]

/-- github_ops.py `write_license_and_readme` (lines 55-99): write the MIT
LICENSE and the README into the working tree.  The definition has exactly
two parameters, `local_dir` and `brief`. -/
def write_license_and_readme (local_dir : List String) (brief : String) : Trace :=
  [Event.writeFile (local_dir ++ ["LICENSE"]) LICENSE_TEXT,
   Event.writeFile (local_dir ++ ["README.md"]) (readmeText brief)]

/-- github_ops.py lines 106-133: the workflow text `add_pages_workflow`
writes (a second, different Pages workflow from generator.py's). -/
def ADD_PAGES_YML : String := String.intercalate "\n" [
  "name: Deploy static site to Pages",
  "on:",
  "  push:",
  "    branches: [ \"main\" ]",
  "permissions:",
  "  contents: read",
  "  pages: write",
  "  id-token: write",
  "jobs:",
  "  build:",
  "    runs-on: ubuntu-latest",
  "    steps:",
  "      - uses: actions/checkout@v4",
  "      - uses: actions/configure-pages@v4",
  "      - uses: actions/upload-pages-artifact@v3",
  "        with:",
  "          path: .",
  "  deploy:",
  "    needs: build",
  "    runs-on: ubuntu-latest",
  "    environment:",
  "      name: github-pages",
  "      url: $\x7b\x7b steps.deployment.outputs.page_url \x7d\x7d",
  "    steps:",
  "      - id: deployment",
  "        uses: actions/deploy-pages@v4",
  ""]

/-- github_ops.py `add_pages_workflow` (lines 102-133): create the
workflow directory and overwrite `.github/workflows/pages.yml`. -/
def add_pages_workflow (local_dir : List String) : Trace :=
  [Event.mkdir (local_dir ++ [".github", "workflows"]),
   Event.writeFile (local_dir ++ [".github", "workflows", "pages.yml"]) ADD_PAGES_YML]

/-- github_ops.py `git_push_and_get_commit` (lines 136-151): stage, commit
(allowing empty), probe for the `origin` remote and add it when the probe
fails, push with upstream tracking, and return the stripped `rev-parse`
output.  The definition has exactly two parameters, `local_dir` and
`repo_name`. -/
def git_push_and_get_commit (env : Env) (local_dir : List String)
    (repo_name : String) : Trace × Except PyErr String :=
  match _get_user env with
  | .error e => ([], .error e)
  | .ok user =>
    match sh env gitAddCmd (some local_dir) with
    | (t1, .error e) => (t1, .error e)
    | (t1, .ok _) =>
      match sh env gitCommitCmd (some local_dir) with
      | (t2, .error e) => (t1 ++ t2, .error e)
      | (t2, .ok _) =>
        let remoteStep : Trace × Except PyErr Unit :=
          match sh env gitGetUrlCmd (some local_dir) with
          | (t3, .ok _) => (t3, .ok ())
          | (t3, .error _) =>
            match sh env (gitAddRemoteCmd user repo_name) (some local_dir) with
            | (t4, .error e) => (t3 ++ t4, .error e)
            | (t4, .ok _) => (t3 ++ t4, .ok ())
        match remoteStep with
        | (t34, .error e) => (t1 ++ t2 ++ t34, .error e)
        | (t34, .ok _) =>
          match sh env gitPushCmd (some local_dir) with
          | (t5, .error e) => (t1 ++ t2 ++ t34 ++ t5, .error e)
          | (t5, .ok _) =>
            match sh env gitRevParseCmd (some local_dir) with
            | (t6, .error e) => (t1 ++ t2 ++ t34 ++ t5 ++ t6, .error e)
            | (t6, .ok sha) => (t1 ++ t2 ++ t34 ++ t5 ++ t6, .ok sha)

/-- github_ops.py `pages_url` (lines 154-155). -/
def pages_url (env : Env) (repo_name : String) : Except PyErr String :=
  match _get_user env with
  | .error e => .error e
  | .ok user => .ok ("https://" ++ user ++ ".github.io/" ++ repo_name ++ "/")

/-- github_ops.py `repo_url` (lines 158-159). -/
def repo_url (env : Env) (repo_name : String) : Except PyErr String :=
  match _get_user env with
  | .error e => .error e
  | .ok user => .ok ("https://github.com/" ++ user ++ "/" ++ repo_name)

/-- github_ops.py line 55: `write_license_and_readme` is defined with two
parameters, `local_dir` and `brief`. -/
def writeLicenseReadmeParams : Nat := 2

/-- main.py line 93: `accept_task` passes three positional arguments,
`work_dir`, `title` and `summary`, to `write_license_and_readme`. -/
def writeLicenseReadmeArgs : Nat := 3

/-- github_ops.py line 136: `git_push_and_get_commit` is defined with two
parameters, `local_dir` and `repo_name`, neither with a default. -/
def gitPushParams : Nat := 2

/-- main.py line 99: `accept_task` passes a single positional argument,
`work_dir`, to `git_push_and_get_commit`. -/
def gitPushArgs : Nat := 1

/-- The `TypeError` message the Python interpreter raises at main.py line 93. -/
def writeLicenseReadmeTypeErrorMsg : String :=
  "write_license_and_readme() takes 2 positional arguments but 3 were given"

/-- The `TypeError` message the Python interpreter would raise at main.py
line 99. -/
def gitPushTypeErrorMsg : String :=
  "git_push_and_get_commit() missing 1 required positional argument: \x27repo_name\x27"

/-- main.py `accept_task` (lines 68-119): verify the secret (401 on
mismatch, before any side effect); sanitize the task into a repository
name; run `ensure_repo`, then `materialize_app`; build `title` and
`summary`; call `write_license_and_readme` with three positional arguments
(a call the interpreter rejects with a `TypeError`, because the callee
takes two — modelled by the arity guard); then `add_pages_workflow`,
`git_push_and_get_commit` with one argument (a second arity mismatch), and
the `return` at lines 102-111 with status "ok".  The code at lines 112-119
(`post_with_backoff` and the "accepted"/note response) sits after that
`return` and is unreachable, so it is not part of the function's
behaviour; the working directory is modelled relative to the project root
as `["app", repo_name]`. -/
def accept_task (env : Env) (req : TaskRequest) : Trace × Except PyErr TaskResponse :=
  if !(env.verify_secret req.secret) then
    ([], .error (.httpException 401 "Invalid secret"))
  else
    let repoName : String := pyReplace req.task "/" "-"
    let workDir : List String := ["app", repoName]
    match ensure_repo env repoName workDir with
    | (t1, .error e) => (t1, .error e)
    | (t1, .ok _) =>
      match materialize_app env.llm workDir req.brief req.attachments with
      | (t2, .error e) => (t1 ++ t2, .error e)
      | (t2, .ok _) =>
        let title : String :=
          pyTitle (pyReplace (pyReplace (pyOr repoName req.task) "-" " ") "_" " ")
        let summary : String :=
          req.brief ++ "\n\nThis app was generated automatically for task \x27"
            ++ req.task ++ "\x27 (round " ++ toString req.round ++ ")."
        if writeLicenseReadmeArgs = writeLicenseReadmeParams then
          -- Counterfactual branch, never taken (3 is not 2): were the call
          -- well-formed, Python would bind local_dir := work_dir, brief := title.
          let t3 := write_license_and_readme workDir title
          let t4 := add_pages_workflow workDir
          if gitPushArgs = gitPushParams then
            -- Counterfactual branch, never taken (1 is not 2).
            match git_push_and_get_commit env workDir repoName with
            | (t5, .error e) => (t1 ++ t2 ++ t3 ++ t4 ++ t5, .error e)
            | (t5, .ok commitSha) =>
              match repo_url env repoName, pages_url env repoName with
              | .ok ru, .ok pu =>
                (t1 ++ t2 ++ t3 ++ t4 ++ t5,
                 .ok { status := "ok", email := req.email, task := req.task,
                       round := req.round, nonce := req.nonce, repo_url := ru,
                       commit_sha := commitSha, pages_url := pu })
              | .error e, _ => (t1 ++ t2 ++ t3 ++ t4 ++ t5, .error e)
              | _, .error e => (t1 ++ t2 ++ t3 ++ t4 ++ t5, .error e)
          else
            (t1 ++ t2 ++ t3 ++ t4, .error (.typeError gitPushTypeErrorMsg))
        else
          -- Reached on every run that gets past materialize_app: the summary
          -- argument does not fit write_license_and_readme's two parameters.
          (t1 ++ t2, .error (.typeError writeLicenseReadmeTypeErrorMsg))

/-- A cooperative environment: the configured secret is "s3cr3t", the
GitHub account is "alice", the generation provider is unconfigured (no
credentials, so `call_llm` degrades), and every shell command exits 0 with
empty output. -/
def envOk : Env where
  verify_secret := fun s => s == "s3cr3t"
  github_user := some "alice"
  llm := .noCreds
  sh_result := fun _ => ⟨0, "", ""⟩

/-- A well-formed request carrying the valid secret, with a task
identifier containing a path separator and no attachments. -/
def reqDemo : TaskRequest where
  email := "user@example.com"
  secret := "s3cr3t"
  task := "demo/app"
  round := 1
  nonce := "nonce-1"
  brief := "Build a captcha solver"
  checks := []
  evaluation_url := "https://eval.example/notify"
  attachments := []

/-- Does an event run `git init -b main`? -/
def isGitInitRun : Event → Bool
  | .run cmd _ => cmd == gitInitCmd
  | _ => false

/-- Does an event write a file with the given final path segment? -/
def isWriteOf (fname : String) : Event → Bool
  | .writeFile p _ => p.getLast? == some fname
  | _ => false

/-- Is an event an outbound HTTP post (a notification attempt)? -/
def isHttpPost : Event → Bool
  | .httpPost _ => true
  | _ => false

/-- A valid request whose callback URL is unreachable, so any notification
attempt would ultimately fail. -/
def reqNotify : TaskRequest :=
  { reqDemo with evaluation_url := "https://unreachable.invalid/notify", nonce := "nonce-3" }

/-- C1: the claim says every valid-secret request gets a non-crashing JSON
response with the pipeline run to completion even when the generation
provider is unconfigured.  On the code this fails: with a valid secret, a
cooperative environment and no provider credentials, the fallback file set
(index.html, styles.css and the workflow descriptor) is indeed written,
but `accept_task` then raises a `TypeError`, because main.py line 93
passes three positional arguments to `write_license_and_readme`, which is
defined with two parameters — so the pipeline never completes and the
caller receives an exception, not the JSON response. -/
theorem accept_task_valid_secret_crashes :
    (accept_task envOk reqDemo).2 = .error (.typeError writeLicenseReadmeTypeErrorMsg)
    ∧ (accept_task envOk reqDemo).1.any (isWriteOf "index.html") = true
    ∧ (accept_task envOk reqDemo).1.any (isWriteOf "styles.css") = true
    ∧ (accept_task envOk reqDemo).1.any (isWriteOf "pages.yml") = true :=
  ⟨rfl, rfl, rfl, rfl⟩

/-- C2: the claim says content generation runs before repository
provisioning.  On the code the order is reversed: in the trace of a
valid-secret run, `git init -b main` (issued by `ensure_repo`, main.py
line 78) occurs strictly before the write of the fallback `index.html`
(issued by `materialize_app`, main.py line 81), and the index.html write
does occur in the trace. -/
theorem accept_task_provisions_before_generating :
    (accept_task envOk reqDemo).1.findIdx (isWriteOf "index.html")
      < (accept_task envOk reqDemo).1.length
    ∧ (accept_task envOk reqDemo).1.findIdx isGitInitRun
      < (accept_task envOk reqDemo).1.findIdx (isWriteOf "index.html") := by
  decide

/-- C3: the claim says a request whose notification ultimately fails gets
status "accepted" with a non-empty note and the echoed BuildResult fields.
On the code no notification is ever attempted: the handler raises a
`TypeError` at the `write_license_and_readme` call, and even apart from
that, the notification code at main.py lines 112-119 sits after the
`return` at lines 102-111 (and reads a name, `payload`, that is never
bound), so the trace of this run with an unreachable callback URL contains
no outbound HTTP post and the result is an exception, never an "accepted"
response. -/
theorem accept_task_never_notifies :
    (accept_task envOk reqNotify).1.all (fun e => !(isHttpPost e)) = true
    ∧ (accept_task envOk reqNotify).2
      = .error (.typeError writeLicenseReadmeTypeErrorMsg) :=
  ⟨rfl, rfl⟩

/-- C4: a request whose secret fails verification terminates immediately
with a 401 authorization failure and an empty side-effect trace: no file
is written, no repository is created, no commit is made. -/
theorem accept_task_invalid_secret_no_side_effects (env : Env) (req : TaskRequest)
    (h : env.verify_secret req.secret = false) :
    accept_task env req = ([], .error (.httpException 401 "Invalid secret")) := by
  unfold accept_task
  simp [h]

/-- C4 witness: the cooperative environment rejects a wrong secret with a
401 and no side effects. -/
theorem accept_task_invalid_secret_no_side_effects_w :
    envOk.verify_secret "wrong-secret" = false
    ∧ accept_task envOk { reqDemo with secret := "wrong-secret" }
      = ([], .error (.httpException 401 "Invalid secret")) :=
  ⟨rfl, accept_task_invalid_secret_no_side_effects envOk
    { reqDemo with secret := "wrong-secret" } rfl⟩

/-- When the provider interaction degrades — `call_llm` returned the
falsy empty dict, or a parsed dict with no `files` key, or a parsed dict
whose `files` is the empty list — `materialize_app` performs exactly the
fallback run: the working-directory mkdir, the two fallback file writes
with their parent mkdirs, and the workflow descriptor write, raising
nothing. -/
theorem materialize_fallback_run (llm : LLMOutcome) (dir : List String)
    (brief : String) (atts : List Attachment)
    (hdeg : call_llm llm = .obj []
      ∨ (∃ fields, call_llm llm = .obj fields ∧ lookupField fields "files" = none)
      ∨ (∃ fields, call_llm llm = .obj fields
          ∧ lookupField fields "files" = some (.arr []))) :
    materialize_app llm dir brief atts =
      ([Event.mkdir dir,
        Event.mkdir (pyJoin dir "index.html").dropLast,
        Event.writeFile (pyJoin dir "index.html")
          (pyReplace FALLBACK_HTML DEFAULT_URL_PAT (pyOr (default_url atts) "")),
        Event.mkdir (pyJoin dir "styles.css").dropLast,
        Event.writeFile (pyJoin dir "styles.css") FALLBACK_CSS,
        Event.mkdir (dir ++ [".github", "workflows"]),
        Event.writeFile (dir ++ [".github", "workflows", "pages.yml"]) PAGES_YML],
       .ok ()) := by
  rcases hdeg with h | ⟨fields, h, hlk⟩ | ⟨fields, h, hlk⟩
  · simp [materialize_app, h, JVal.truthy, writeFiles, writeEntry,
      FileEntry.toJVal, builtin_template, JVal.index, lookupField]
  · cases fields with
    | nil =>
      simp [materialize_app, h, JVal.truthy, writeFiles, writeEntry,
        FileEntry.toJVal, builtin_template, JVal.index, lookupField]
    | cons kv rest =>
      simp [materialize_app, h, JVal.truthy, JVal.get, hlk]
      simp [writeFiles, writeEntry, FileEntry.toJVal, builtin_template,
        JVal.index, lookupField]
  · cases fields with
    | nil => simp [lookupField] at hlk
    | cons kv rest =>
      simp [materialize_app, h, JVal.truthy, JVal.get, hlk]
      simp [writeFiles, writeEntry, FileEntry.toJVal, builtin_template,
        JVal.index, lookupField]

/-- A provider response that parses to a dict with a one-entry files list
whose entry lacks the `content` key:
`\x7b"files": [\x7b"path": "index.html"\x7d]\x7d`. -/
def llmMissingContent : LLMOutcome :=
  .parsed (.obj [("files", .arr [.obj [("path", .str "index.html")]])])

/-- C5: the claim says the materialized file set always contains the CI
workflow descriptor, regardless of generation-provider output.  On the
code this fails for parseable but ill-shaped provider output: with a
files list whose entry lacks the "content" key, the write loop raises
`KeyError` at generator.py line 122, before the unconditional descriptor
write at lines 124-127, so no pages.yml write occurs and the request
fails — although the spec (the generate contract "never fails" and step 1
of section 4.1, which sends any response body not fitting the expected
files shape to the fallback) makes the claim the clear intent, and the
missing shape validation the slip.  The theorem evaluates the code at the
failing input, for `materialize_app` alone and for the full endpoint. -/
theorem materialize_malformed_entry_skips_workflow :
    (materialize_app llmMissingContent ["app", "demo-app"] "b" []).2
      = .error (.keyError "content")
    ∧ (materialize_app llmMissingContent ["app", "demo-app"] "b" []).1.any
        (isWriteOf "pages.yml") = false
    ∧ (accept_task { envOk with llm := llmMissingContent } reqDemo).2
      = .error (.keyError "content") :=
  ⟨rfl, rfl, rfl⟩

/-- The `RuntimeError` message produced when the `gh repo create` call of
`ensure_repo` exits non-zero: `sh` packs the command line and its captured
stdout/stderr into the message that `ensure_repo` then inspects. -/
def ghCreateFailMsg (env : Env) (user repo : String) : String :=
  shFailMsg (ghRepoCreateCmd user repo)
    (env.sh_result (ghRepoCreateCmd user repo)).stdout
    (env.sh_result (ghRepoCreateCmd user repo)).stderr

/-- An environment whose `gh repo create` fails with a mixed-case
"Already Exists" message; every git command succeeds. -/
def envGhUpper : Env where
  verify_secret := fun s => s == "s3cr3t"
  github_user := some "alice"
  llm := .noCreds
  sh_result := fun c =>
    if c = ghRepoCreateCmd "alice" "demo-app" then
      ⟨1, "", "GraphQL: Name Already Exists on this account"⟩
    else ⟨0, "", ""⟩

/-- C6 counterexample: the claim reads "an error whose message contains
\"already exists\"" and "any other creation failure raises", but the code
lower-cases the message before testing, so a creation failure whose
message contains only the mixed-case "Already Exists" — hence not the
literal substring "already exists" — is still treated as success instead
of raising. -/
theorem ensure_repo_literal_contains_ce :
    containsSub (ghCreateFailMsg envGhUpper "alice" "demo-app") "already exists" = false
    ∧ (ensure_repo envGhUpper "demo-app" ["app", "demo-app"]).2 = .ok () :=
  ⟨rfl, rfl⟩

/-- C6 (amended): remote repository creation is idempotent in the
case-insensitive sense the code implements: when the provider's creation
call fails, `ensure_repo` succeeds exactly when the lower-cased error
message contains "already exists", and raises that same `RuntimeError`
(aborting the pipeline) otherwise. -/
theorem ensure_repo_already_exists_case_insensitive (env : Env)
    (user repo : String) (dir : List String)
    (hu : env.github_user = some user) (hne : user ≠ "")
    (h1 : (env.sh_result gitInitCmd).returncode = 0)
    (h2 : (env.sh_result (gitConfigNameCmd user)).returncode = 0)
    (h3 : (env.sh_result (gitConfigEmailCmd user)).returncode = 0)
    (hg : (env.sh_result (ghRepoCreateCmd user repo)).returncode ≠ 0) :
    (containsSub (pyLower (ghCreateFailMsg env user repo)) "already exists" = true →
      (ensure_repo env repo dir).2 = .ok ())
    ∧ (containsSub (pyLower (ghCreateFailMsg env user repo)) "already exists" = false →
      (ensure_repo env repo dir).2
        = .error (.runtimeError (ghCreateFailMsg env user repo))) := by
  constructor <;> intro hc <;>
    simp only [ghCreateFailMsg] at hc <;>
    simp [ensure_repo, _get_user, hu, hne, sh, h1, h2, h3, hg, ghCreateFailMsg, hc]

/-- An environment whose `gh repo create` fails with the provider's usual
lower-case "already exists" message; every git command succeeds. -/
def envGhLower : Env where
  verify_secret := fun s => s == "s3cr3t"
  github_user := some "alice"
  llm := .noCreds
  sh_result := fun c =>
    if c = ghRepoCreateCmd "alice" "demo-app" then
      ⟨1, "", "Name already exists on this account"⟩
    else ⟨0, "", ""⟩

/-- C6 witness: a creation failure whose lower-cased message contains
"already exists" is swallowed and `ensure_repo` returns success. -/
theorem ensure_repo_already_exists_case_insensitive_w :
    containsSub (pyLower (ghCreateFailMsg envGhLower "alice" "demo-app")) "already exists" = true
    ∧ (ensure_repo envGhLower "demo-app" ["app", "demo-app"]).2 = .ok () :=
  ⟨rfl, (ensure_repo_already_exists_case_insensitive envGhLower "alice" "demo-app"
      ["app", "demo-app"] rfl (by decide) rfl rfl rfl (by decide)).1 rfl⟩

/-- Resolution processes an appended segment list by continuing from the
resolution of the first part. -/
theorem resolveComp_append (xs ys acc : List String) :
    resolveComp acc (xs ++ ys) = resolveComp (resolveComp acc xs) ys := by
  induction xs generalizing acc with
  | nil => rfl
  | cons s rest ih =>
    by_cases h1 : s = "" ∨ s = "."
    · simp only [List.cons_append, resolveComp, if_pos h1]
      exact ih _
    · by_cases h2 : s = ".."
      · simp only [List.cons_append, resolveComp, if_neg h1, if_pos h2]
        exact ih _
      · simp only [List.cons_append, resolveComp, if_neg h1, if_neg h2]
        exact ih _

/-- Resolution leaves a list of ordinary segments (no empty, dot or
dot-dot entries) appended to the accumulator. -/
theorem resolveComp_plain (ys : List String) (acc : List String)
    (h : ∀ s ∈ ys, ¬(s = "" ∨ s = ".") ∧ ¬(s = "..")) :
    resolveComp acc ys = acc ++ ys := by
  induction ys generalizing acc with
  | nil => simp [resolveComp]
  | cons s rest ih =>
    obtain ⟨h1, h2⟩ := h s (List.mem_cons_self s rest)
    simp only [resolveComp, if_neg h1, if_neg h2]
    rw [ih _ (fun t ht => h t (List.mem_cons_of_mem s ht))]
    simp

/-- A list is a Boolean prefix of itself followed by anything. -/
theorem isPrefixOf_append_self {α : Type} [BEq α] [LawfulBEq α] (l ys : List α) :
    l.isPrefixOf (l ++ ys) = true := by
  induction l with
  | nil => cases ys <;> rfl
  | cons a rest ih => simp [List.isPrefixOf, ih]

/-- C7 counterexample: the claim says entries whose relative path contains
`..` segments are rejected or normalized and never written outside the
working tree, but `materialize_app` joins provider paths verbatim: a
provider entry with path "../evil.txt" is written at the join, which
resolves outside the working tree. -/
theorem materialize_dotdot_escape_ce :
    Event.writeFile (["app", "demo-app"] ++ ["..", "evil.txt"]) "owned"
      ∈ (materialize_app
          (.parsed (.obj [("files", .arr
            [.obj [("path", .str "../evil.txt"), ("content", .str "owned")]])]))
          ["app", "demo-app"] "b" []).1
    ∧ ["app", "demo-app"].isPrefixOf
        (resolvePath (["app", "demo-app"] ++ ["..", "evil.txt"])) = false := by
  decide

/-- C7 (amended): no sanitization of `..` segments is performed — provider
entries are written at the verbatim join and can escape (see the
counterexample) — but on the fallback path every file `materialize_app`
writes (index.html, styles.css and the workflow descriptor) resolves to a
location inside the working tree. -/
theorem materialize_fallback_paths_inside (llm : LLMOutcome) (dir : List String)
    (brief : String) (atts : List Attachment)
    (hdeg : call_llm llm = .obj []
      ∨ (∃ fields, call_llm llm = .obj fields ∧ lookupField fields "files" = none)
      ∨ (∃ fields, call_llm llm = .obj fields
          ∧ lookupField fields "files" = some (.arr [])))
    (hdir : resolvePath dir = dir) :
    ∀ p c, Event.writeFile p c ∈ (materialize_app llm dir brief atts).1 →
      dir.isPrefixOf (resolvePath p) = true := by
  have key : ∀ ys : List String, (∀ s ∈ ys, ¬(s = "" ∨ s = ".") ∧ ¬(s = "..")) →
      dir.isPrefixOf (resolvePath (dir ++ ys)) = true := by
    intro ys hys
    rw [resolvePath, resolveComp_append, ← resolvePath, hdir,
      resolveComp_plain ys dir hys]
    exact isPrefixOf_append_self dir ys
  intro p c hmem
  rw [materialize_fallback_run llm dir brief atts hdeg] at hmem
  have hsplit1 : pyJoin dir "index.html" = dir ++ ["index.html"] := rfl
  have hsplit2 : pyJoin dir "styles.css" = dir ++ ["styles.css"] := rfl
  simp [hsplit1, hsplit2] at hmem
  rcases hmem with ⟨hp, _⟩ | ⟨hp, _⟩ | ⟨hp, _⟩ <;> subst hp <;>
    first
    | exact key ["index.html"] (by decide)
    | exact key ["styles.css"] (by decide)
    | exact key [".github", "workflows", "pages.yml"] (by decide)

/-- C7 witness: with a normalized working directory and the degraded
provider, the workflow descriptor written by `materialize_app` resolves
inside the working tree. -/
theorem materialize_fallback_paths_inside_w :
    resolvePath ["app", "demo-app"] = ["app", "demo-app"]
    ∧ ["app", "demo-app"].isPrefixOf
        (resolvePath (["app", "demo-app"] ++ [".github", "workflows", "pages.yml"]))
      = true :=
  ⟨rfl, materialize_fallback_paths_inside .noCreds ["app", "demo-app"] "b" []
    (Or.inl rfl) rfl (["app", "demo-app"] ++ [".github", "workflows", "pages.yml"])
    PAGES_YML
    (by rw [materialize_fallback_run .noCreds ["app", "demo-app"] "b" []
          (Or.inl rfl)]
        simp)⟩

/-- The `PyErr` that `sh` raises for a given command under a given
environment: a `RuntimeError` carrying the command line and its captured
stdout and stderr. -/
def shFailErr (env : Env) (cmd : String) : PyErr :=
  .runtimeError (shFailMsg cmd (env.sh_result cmd).stdout (env.sh_result cmd).stderr)

/-- C8: `git_push_and_get_commit` stages, commits allowing an empty
commit, probes for the `origin` remote and adds it only when the probe
fails (tolerating its prior existence), pushes to `main` with upstream
tracking, and returns the stripped output of `git rev-parse HEAD` (the
full commit hash); each step completes before the next starts, and a
non-zero exit at any step raises a `RuntimeError` carrying the captured
stdout/stderr and aborts all remaining steps.  The conjuncts cover, in
order: full success with an existing remote, full success with a missing
remote, and failure at the stage, commit, remote-add, push and rev-parse
steps. -/
theorem git_push_and_get_commit_spec (env : Env) (user repo : String)
    (dir : List String) (hu : env.github_user = some user) (hne : user ≠ "") :
    ((env.sh_result gitAddCmd).returncode = 0 →
      (env.sh_result gitCommitCmd).returncode = 0 →
      (env.sh_result gitGetUrlCmd).returncode = 0 →
      (env.sh_result gitPushCmd).returncode = 0 →
      (env.sh_result gitRevParseCmd).returncode = 0 →
      git_push_and_get_commit env dir repo =
        ([Event.run gitAddCmd (some dir), Event.run gitCommitCmd (some dir),
          Event.run gitGetUrlCmd (some dir), Event.run gitPushCmd (some dir),
          Event.run gitRevParseCmd (some dir)],
         .ok (pyStrip (env.sh_result gitRevParseCmd).stdout)))
    ∧ ((env.sh_result gitAddCmd).returncode = 0 →
      (env.sh_result gitCommitCmd).returncode = 0 →
      (env.sh_result gitGetUrlCmd).returncode ≠ 0 →
      (env.sh_result (gitAddRemoteCmd user repo)).returncode = 0 →
      (env.sh_result gitPushCmd).returncode = 0 →
      (env.sh_result gitRevParseCmd).returncode = 0 →
      git_push_and_get_commit env dir repo =
        ([Event.run gitAddCmd (some dir), Event.run gitCommitCmd (some dir),
          Event.run gitGetUrlCmd (some dir),
          Event.run (gitAddRemoteCmd user repo) (some dir),
          Event.run gitPushCmd (some dir), Event.run gitRevParseCmd (some dir)],
         .ok (pyStrip (env.sh_result gitRevParseCmd).stdout)))
    ∧ ((env.sh_result gitAddCmd).returncode ≠ 0 →
      git_push_and_get_commit env dir repo =
        ([Event.run gitAddCmd (some dir)], .error (shFailErr env gitAddCmd)))
    ∧ ((env.sh_result gitAddCmd).returncode = 0 →
      (env.sh_result gitCommitCmd).returncode ≠ 0 →
      git_push_and_get_commit env dir repo =
        ([Event.run gitAddCmd (some dir), Event.run gitCommitCmd (some dir)],
         .error (shFailErr env gitCommitCmd)))
    ∧ ((env.sh_result gitAddCmd).returncode = 0 →
      (env.sh_result gitCommitCmd).returncode = 0 →
      (env.sh_result gitGetUrlCmd).returncode ≠ 0 →
      (env.sh_result (gitAddRemoteCmd user repo)).returncode ≠ 0 →
      git_push_and_get_commit env dir repo =
        ([Event.run gitAddCmd (some dir), Event.run gitCommitCmd (some dir),
          Event.run gitGetUrlCmd (some dir),
          Event.run (gitAddRemoteCmd user repo) (some dir)],
         .error (shFailErr env (gitAddRemoteCmd user repo))))
    ∧ ((env.sh_result gitAddCmd).returncode = 0 →
      (env.sh_result gitCommitCmd).returncode = 0 →
      (env.sh_result gitGetUrlCmd).returncode = 0 →
      (env.sh_result gitPushCmd).returncode ≠ 0 →
      git_push_and_get_commit env dir repo =
        ([Event.run gitAddCmd (some dir), Event.run gitCommitCmd (some dir),
          Event.run gitGetUrlCmd (some dir), Event.run gitPushCmd (some dir)],
         .error (shFailErr env gitPushCmd)))
    ∧ ((env.sh_result gitAddCmd).returncode = 0 →
      (env.sh_result gitCommitCmd).returncode = 0 →
      (env.sh_result gitGetUrlCmd).returncode = 0 →
      (env.sh_result gitPushCmd).returncode = 0 →
      (env.sh_result gitRevParseCmd).returncode ≠ 0 →
      git_push_and_get_commit env dir repo =
        ([Event.run gitAddCmd (some dir), Event.run gitCommitCmd (some dir),
          Event.run gitGetUrlCmd (some dir), Event.run gitPushCmd (some dir),
          Event.run gitRevParseCmd (some dir)],
         .error (shFailErr env gitRevParseCmd))) := by
  refine ⟨?_, ?_, ?_, ?_, ?_, ?_, ?_⟩ <;> intros <;>
    simp_all [git_push_and_get_commit, _get_user, hu, hne, sh, shFailErr]

/-- A cooperative push environment: every command exits 0, and the
rev-parse output is a full 40-character hash followed by a newline. -/
def envPush : Env where
  verify_secret := fun s => s == "s3cr3t"
  github_user := some "alice"
  llm := .noCreds
  sh_result := fun c =>
    if c = gitRevParseCmd then
      ⟨0, "0a1b2c3d4e5f0a1b2c3d4e5f0a1b2c3d4e5f0a1b\n", ""⟩
    else ⟨0, "", ""⟩

/-- C8 witness: with every command succeeding and an existing origin
remote, the publisher runs the five commands in order and returns the
stripped rev-parse output. -/
theorem git_push_and_get_commit_spec_w :
    (envPush.sh_result gitAddCmd).returncode = 0
    ∧ git_push_and_get_commit envPush ["app", "demo-app"] "demo-app" =
      ([Event.run gitAddCmd (some ["app", "demo-app"]),
        Event.run gitCommitCmd (some ["app", "demo-app"]),
        Event.run gitGetUrlCmd (some ["app", "demo-app"]),
        Event.run gitPushCmd (some ["app", "demo-app"]),
        Event.run gitRevParseCmd (some ["app", "demo-app"])],
       .ok "0a1b2c3d4e5f0a1b2c3d4e5f0a1b2c3d4e5f0a1b") :=
  ⟨rfl, (git_push_and_get_commit_spec envPush "alice" "demo-app"
    ["app", "demo-app"] rfl (by decide)).1 rfl rfl rfl rfl rfl⟩

/-- C9: in the fallback-generated index.html, the value substituted for
the `\x7bDEFAULT_URL\x7d` placeholder is the empty string when the request
has no attachments, and is `url` when the request has exactly one
attachment with that url: `materialize_app` writes index.html with
exactly that substitution performed on the template. -/
theorem fallback_default_image_url (llm : LLMOutcome) (dir : List String)
    (brief : String)
    (hdeg : call_llm llm = .obj []
      ∨ (∃ fields, call_llm llm = .obj fields ∧ lookupField fields "files" = none)
      ∨ (∃ fields, call_llm llm = .obj fields
          ∧ lookupField fields "files" = some (.arr []))) :
    (Event.writeFile (pyJoin dir "index.html")
        (pyReplace FALLBACK_HTML DEFAULT_URL_PAT "")
        ∈ (materialize_app llm dir brief []).1)
    ∧ ∀ (name url : String),
        Event.writeFile (pyJoin dir "index.html")
            (pyReplace FALLBACK_HTML DEFAULT_URL_PAT url)
          ∈ (materialize_app llm dir brief [⟨name, url⟩]).1 := by
  constructor
  · rw [materialize_fallback_run llm dir brief [] hdeg]
    simp [default_url, pyOr]
  · intro name url
    rw [materialize_fallback_run llm dir brief [⟨name, url⟩] hdeg]
    by_cases hu : url = "" <;> simp [default_url, pyOr, hu]

/-- C9 witness: with the provider unconfigured, the fallback index.html
for a request with one attachment carries that attachment's url as the
substituted default image URL. -/
theorem fallback_default_image_url_w :
    (call_llm .noCreds = .obj []
      ∨ (∃ fields, call_llm .noCreds = .obj fields
          ∧ lookupField fields "files" = none)
      ∨ (∃ fields, call_llm .noCreds = .obj fields
          ∧ lookupField fields "files" = some (.arr [])))
    ∧ Event.writeFile (pyJoin ["app", "demo-app"] "index.html")
        (pyReplace FALLBACK_HTML DEFAULT_URL_PAT "https://img.example/c.png")
        ∈ (materialize_app .noCreds ["app", "demo-app"] "b"
            [⟨"cap", "https://img.example/c.png"⟩]).1 :=
  ⟨Or.inl rfl, (fallback_default_image_url .noCreds ["app", "demo-app"] "b"
    (Or.inl rfl)).2 "cap" "https://img.example/c.png"⟩

/-- C10: when the generation provider returns a non-empty files list, the
request's attachments have no influence on the materialized writes: the
whole side-effect trace of `materialize_app` (every file path and every
file content written) is identical for any two attachment lists. -/
theorem materialize_app_attachments_noninterference (llm : LLMOutcome)
    (dir : List String) (brief : String) (atts1 atts2 : List Attachment)
    (fields : List (String × JVal)) (items : List JVal)
    (hv : call_llm llm = .obj fields)
    (hlk : lookupField fields "files" = some (.arr items))
    (hne : items ≠ []) :
    materialize_app llm dir brief atts1 = materialize_app llm dir brief atts2 := by
  cases fields with
  | nil => simp [lookupField] at hlk
  | cons kv rest =>
    cases items with
    | nil => exact absurd rfl hne
    | cons f restItems =>
      simp [materialize_app, hv, JVal.truthy, JVal.get, hlk, JVal.iter]

/-- A provider response that parses to a dict with a one-entry,
well-shaped files list. -/
def providerOneFile : JVal :=
  .obj [("files", .arr [.obj [("path", .str "app.html"), ("content", .str "<p>hi</p>")]])]

/-- C10 witness: with a one-entry provider file list, the results for an
empty attachment list and a one-attachment list coincide. -/
theorem materialize_app_attachments_noninterference_w :
    call_llm (.parsed providerOneFile) = providerOneFile
    ∧ lookupField [("files", .arr [.obj [("path", .str "app.html"),
        ("content", .str "<p>hi</p>")]])] "files"
      = some (.arr [.obj [("path", .str "app.html"), ("content", .str "<p>hi</p>")]])
    ∧ ([.obj [("path", .str "app.html"), ("content", .str "<p>hi</p>")]] : List JVal) ≠ []
    ∧ materialize_app (.parsed providerOneFile) ["app", "rx"] "b" []
      = materialize_app (.parsed providerOneFile) ["app", "rx"] "b"
          [⟨"n", "https://u.example/i.png"⟩] :=
  ⟨rfl, rfl, List.cons_ne_nil _ _,
   materialize_app_attachments_noninterference (.parsed providerOneFile)
     ["app", "rx"] "b" [] [⟨"n", "https://u.example/i.png"⟩]
     [("files", .arr [.obj [("path", .str "app.html"), ("content", .str "<p>hi</p>")]])]
     [.obj [("path", .str "app.html"), ("content", .str "<p>hi</p>")]]
     rfl rfl (List.cons_ne_nil _ _)⟩
